import Mathlib

/-!
Shallow embedding of the e-Khata reminder notification pipeline
(backend/services/notificationService.js and the reminder scheduler file):
the multi-channel dispatcher NotificationService.sendReminder with its three
channel senders, and the ReminderScheduler functions checkDueReminders,
processReminder, cleanupOldNotifications, startAll and stopAll.

Timestamps are millisecond epoch values modelled as Int.  External
collaborators (SMTP gateway, OneSignal gateway, notification store, user
store) are modelled as function parameters returning Except, where
Except.error stands for a raised exception and Except.ok for a normal
return.  JS fields that can be absent or empty are modelled as Option,
with none standing for a falsy value.
-/

/-- A user record: identity, display name, registered email.  An absent or
empty email is modelled as none, matching JS falsiness of the field. -/
structure User where
  id : Nat
  name : String
  email : Option String
deriving DecidableEq, Repr

/-- The notificationChannels sub-document of a reminder. -/
structure NotificationChannels where
  email : Bool
  push : Bool
  inApp : Bool
deriving DecidableEq, Repr

/-- A reminder (the obligation record of the spec).  reminderTime is the
reminder lead in minutes; lastNotificationSent is the dispatch bookkeeping
timestamp. -/
structure Reminder where
  id : Nat
  user : Nat
  title : String
  amount : Int
  status : String
  dueDate : Int
  nextDueDate : Option Int
  reminderTime : Int
  notificationChannels : NotificationChannels
  notificationEmail : Option String
  lastNotificationSent : Option Int
  isOverdue : Bool
deriving DecidableEq, Repr

/-- Per-channel send outcome, the union of the result objects built by
sendEmailNotification, sendPushNotification and createInAppNotification. -/
structure ChannelResult where
  success : Bool
  messageId : Option String := none
  sentTo : Option String := none
  attemptedEmail : Option String := none
  data : Option String := none
  notificationId : Option Nat := none
  error : Option String := none
deriving DecidableEq, Repr

/-- The results object assembled by sendReminder: one optional result per
channel, the overall success flag, and the caught orchestration error. -/
structure AggregateResult where
  email : Option ChannelResult
  push : Option ChannelResult
  inApp : Option ChannelResult
  success : Bool
  error : Option String := none
deriving DecidableEq, Repr

/-- Modelled from the spec: the Notification mongoose model
(backend/models/Notification) is not part of the sources; its fields are
taken from the data-model section of the spec and from the field names the
pipeline itself uses (isRead, readAt, priority, relatedId). -/
structure NotificationRecord where
  id : Nat
  user : Nat
  type : String
  title : String
  message : String
  relatedId : Nat
  relatedType : String
  priority : String
  isRead : Bool
  readAt : Option Int
deriving DecidableEq, Repr

/-- External collaborators of the notification service.  emailGateway maps a
destination address to a gateway message id or a raised error text;
oneSignalConfigured models presence of both OneSignal credentials;
notificationStore persists an in-app record, returning the new record id. -/
structure Env where
  emailGateway : String → Except String String
  oneSignalConfigured : Bool
  pushGateway : Nat → Except String String
  notificationStore : NotificationRecord → Except String Nat

/-- The effective due date of a reminder: nextDueDate when present,
otherwise dueDate. -/
def effectiveDueDate (r : Reminder) : Int :=
  r.nextDueDate.getD r.dueDate

/-- NotificationService.sendEmailNotification: submits to the email gateway
and converts the outcome to a ChannelResult, catching a raised error.
Template rendering (HTML body, locale formatting) is presentation-only and
is abstracted away. -/
def sendEmailNotification (env : Env) ( _r : Reminder) ( _u : User)
    (emailTo : String) : ChannelResult :=
  match env.emailGateway emailTo with
  | .ok info => { success := true, messageId := some info, sentTo := some emailTo }
  | .error e => { success := false, error := some e, attemptedEmail := some emailTo }

/-- NotificationService.sendPushNotification: returns a structured failure
when OneSignal is unconfigured, otherwise calls the gateway addressed by the
user id tag and catches a raised error. -/
def sendPushNotification (env : Env) ( _r : Reminder) (u : User) : ChannelResult :=
  if env.oneSignalConfigured = false then
    { success := false, error := some "OneSignal not configured" }
  else
    match env.pushGateway u.id with
    | .ok d => { success := true, data := some d }
    | .error e => { success := false, error := some e }

/-- The in-app Notification record built by createInAppNotification; the id
is assigned by the store, priority is high exactly when the reminder is
overdue, and a fresh record is unread. -/
def inAppRecord (r : Reminder) (u : User) : NotificationRecord :=
  { id := 0
    user := u.id
    type := "reminder"
    title := "Payment Reminder: " ++ r.title
    message := r.title ++ " is due"
    relatedId := r.id
    relatedType := "Reminder"
    priority := if r.isOverdue then "high" else "normal"
    isRead := false
    readAt := none }

/-- NotificationService.createInAppNotification: persists the record and
converts the outcome to a ChannelResult, catching a raised store error. -/
def createInAppNotification (env : Env) (r : Reminder) (u : User) : ChannelResult :=
  match env.notificationStore (inAppRecord r u) with
  | .ok nid => { success := true, notificationId := some nid }
  | .error e => { success := false, error := some e }

/-- The three channel senders as seen from inside sendReminder.  Each call
may raise (Except.error), which models an uncaught failure reaching the
orchestration try block; the concrete senders of the source never raise
because each catches internally. -/
structure Senders where
  email : Reminder → User → String → Except String ChannelResult
  push : Reminder → User → Except String ChannelResult
  inApp : Reminder → User → Except String ChannelResult

/-- The senders actually installed by the source service. -/
def concreteSenders (env : Env) : Senders :=
  { email := fun r u emailTo => .ok (sendEmailNotification env r u emailTo)
    push := fun r u => .ok (sendPushNotification env r u)
    inApp := fun r u => .ok (createInAppNotification env r u) }

/-- The email block of sendReminder: when the channel is enabled, resolve
the destination as notificationEmail falling back to the user email; skip
the send entirely (result stays null) when neither is present. -/
def emailStep (s : Senders) (r : Reminder) (u : User) :
    Except String (Option ChannelResult) :=
  if r.notificationChannels.email then
    match r.notificationEmail <|> u.email with
    | some emailTo => (s.email r u emailTo).map some
    | none => .ok none
  else .ok none

/-- The push block of sendReminder. -/
def pushStep (s : Senders) (r : Reminder) (u : User) :
    Except String (Option ChannelResult) :=
  if r.notificationChannels.push then (s.push r u).map some else .ok none

/-- The in-app block of sendReminder. -/
def inAppStep (s : Senders) (r : Reminder) (u : User) :
    Except String (Option ChannelResult) :=
  if r.notificationChannels.inApp then (s.inApp r u).map some else .ok none

/-- NotificationService.sendReminder: runs the three channel blocks in
source order inside one try block.  A raise from a block is caught: the
results assigned so far are kept, success stays false and the error message
is stored.  When all blocks complete, success is set to true. -/
def sendReminder (s : Senders) (r : Reminder) (u : User) : AggregateResult :=
  match emailStep s r u with
  | .error e => { email := none, push := none, inApp := none, success := false, error := some e }
  | .ok eR =>
    match pushStep s r u with
    | .error e => { email := eR, push := none, inApp := none, success := false, error := some e }
    | .ok pR =>
      match inAppStep s r u with
      | .error e => { email := eR, push := pR, inApp := none, success := false, error := some e }
      | .ok iR => { email := eR, push := pR, inApp := iR, success := true }

/-- True exactly on a normal (non-raising) Except outcome. -/
def exceptOk {ε α : Type} (x : Except ε α) : Bool :=
  match x with
  | .ok _ => true
  | .error _ => false

/-- Outcome of ReminderScheduler.processReminder on one reminder: the
(possibly updated) reminder document, the dispatcher result when dispatch
was attempted, and the error swallowed by the catch block, if any. -/
structure ProcessOutcome where
  reminder : Reminder
  dispatchResult : Option AggregateResult
  caughtError : Option String
deriving DecidableEq, Repr

/-- ReminderScheduler.processReminder: computes minutesUntilDue with floor
division, returns early when a notification went out less than 12 hours
ago, then, when shouldNotify holds, resolves the user (a store raise is
caught), dispatches, and persists lastNotificationSent = now exactly when
the dispatcher reports success. -/
def processReminder (findUser : Nat → Except String (Option User))
    (s : Senders) (r : Reminder) (now : Int) : ProcessOutcome :=
  let dueDate := r.nextDueDate.getD r.dueDate
  let minutesUntilDue := Int.fdiv (dueDate - now) 60000
  let shouldNotify := decide (minutesUntilDue ≤ r.reminderTime)
  let suppressed :=
    match r.lastNotificationSent with
    | some last => decide (now - last < 12 * 60 * 60 * 1000)
    | none => false
  if suppressed then
    { reminder := r, dispatchResult := none, caughtError := none }
  else if shouldNotify then
    match findUser r.user with
    | .error e => { reminder := r, dispatchResult := none, caughtError := some e }
    | .ok none => { reminder := r, dispatchResult := none, caughtError := none }
    | .ok (some u) =>
      let result := sendReminder s r u
      if result.success then
        { reminder := { r with lastNotificationSent := some now }
          dispatchResult := some result
          caughtError := none }
      else
        { reminder := r, dispatchResult := some result, caughtError := none }
  else
    { reminder := r, dispatchResult := none, caughtError := none }

/-- The Mongo query filter of checkDueReminders: status is active, and
either nextDueDate exists and lies in [now, now + 2h], or nextDueDate is
absent and dueDate lies in [now, now + 2h]. -/
def matchesDueQuery (now : Int) (r : Reminder) : Bool :=
  r.status == "active" &&
    (match r.nextDueDate with
     | some d => decide (now ≤ d) && decide (d ≤ now + 2 * 60 * 60 * 1000)
     | none =>
       decide (now ≤ r.dueDate) && decide (r.dueDate ≤ now + 2 * 60 * 60 * 1000))

/-- Outcome of one scan invocation: the per-reminder outcomes when the
query succeeded, or the logged query error when it raised. -/
inductive ScanResult where
  | completed (outcomes : List ProcessOutcome)
  | aborted (err : String)
deriving DecidableEq, Repr

/-- ReminderScheduler.checkDueReminders: queries the reminder store (which
may raise, modelled by the Except argument), and processes every matching
reminder with processReminder; the surrounding try block makes the whole
scan total. -/
def checkDueReminders (findUser : Nat → Except String (Option User))
    (s : Senders) (now : Int)
    (store : Except String (List Reminder)) : ScanResult :=
  match store with
  | .error e => .aborted e
  | .ok reminders =>
    .completed ((reminders.filter (matchesDueQuery now)).map
      (fun r => processReminder findUser s r now))

/-- The deleteMany filter of cleanupOldNotifications: isRead is true and
readAt is present and earlier than the cutoff (a null readAt never
compares below the cutoff). -/
def readOldPredicate (cutoff : Int) (n : NotificationRecord) : Bool :=
  n.isRead &&
    (match n.readAt with
     | some t => decide (t < cutoff)
     | none => false)

/-- ReminderScheduler.cleanupOldNotifications: deletes every record
matching the filter at cutoff now minus 30 days, yielding the deleted
count (as logged from deletedCount) and the remaining store. -/
def cleanupOldNotifications (now : Int) (store : List NotificationRecord) :
    Nat × List NotificationRecord :=
  let thirtyDaysAgo := now - 30 * 24 * 60 * 60 * 1000
  ((store.filter (readOldPredicate thirtyDaysAgo)).length,
   store.filter (fun n => !(readOldPredicate thirtyDaysAgo n)))

/-- A scheduled cron job handle, as held in this.jobs. -/
structure Job where
  name : String
  running : Bool
deriving DecidableEq, Repr

/-- The ReminderScheduler instance state: its list of registered jobs. -/
structure ReminderScheduler where
  jobs : List Job
deriving DecidableEq, Repr

/-- The constructor state: this.jobs = []. -/
def initialScheduler : ReminderScheduler := { jobs := [] }

/-- ReminderScheduler.startAll: registers a reminderCheck job and a cleanup
job and appends both to this.jobs, unconditionally. -/
def startAll (sch : ReminderScheduler) : ReminderScheduler :=
  { jobs := sch.jobs ++
      [{ name := "reminderCheck", running := true },
       { name := "cleanup", running := true }] }

/-- ReminderScheduler.stopAll: stops every registered job and clears
this.jobs; the first component lists the jobs this call cancelled. -/
def stopAll (sch : ReminderScheduler) : List Job × ReminderScheduler :=
  (sch.jobs.map (fun j => { j with running := false }), { jobs := [] })

/-- A user with a registered email, used as concrete input. -/
def userA : User :=
  { id := 7, name := "Asha", email := some "asha@example.com" }

/-- A user without a registered email, used as concrete input. -/
def userNoEmail : User :=
  { id := 9, name := "Noemail", email := none }

/-- Environment with a working email gateway, unconfigured OneSignal and a
working notification store. -/
def envA : Env :=
  { emailGateway := fun _ => .ok "msg-1"
    oneSignalConfigured := false
    pushGateway := fun _ => .error "unreachable"
    notificationStore := fun _ => .ok 101 }

/-- Environment with a working email gateway and a failing in-app store. -/
def envC : Env :=
  { emailGateway := fun _ => .ok "msg-1"
    oneSignalConfigured := false
    pushGateway := fun _ => .error "unreachable"
    notificationStore := fun _ => .error "db write failed" }

/-- Environment whose email gateway raises on every send. -/
def envBad : Env :=
  { emailGateway := fun _ => .error "SMTP connection refused"
    oneSignalConfigured := false
    pushGateway := fun _ => .error "unreachable"
    notificationStore := fun _ => .ok 101 }

/-- An active email-only reminder due in 90 minutes from epoch 0, with a
120 minute lead and no prior notification. -/
def reminderB : Reminder :=
  { id := 1
    user := 7
    title := "Electricity Bill"
    amount := 1500
    status := "active"
    dueDate := 5400000
    nextDueDate := none
    reminderTime := 120
    notificationChannels := { email := true, push := false, inApp := false }
    notificationEmail := some "user@example.com"
    lastNotificationSent := none
    isOverdue := false }

/-- An active reminder with email and in-app channels enabled. -/
def reminderD : Reminder :=
  { id := 2
    user := 7
    title := "Internet Bill"
    amount := 900
    status := "active"
    dueDate := 5400000
    nextDueDate := none
    reminderTime := 120
    notificationChannels := { email := true, push := false, inApp := true }
    notificationEmail := some "user@example.com"
    lastNotificationSent := none
    isOverdue := false }

/-- An email-enabled reminder carrying no override address. -/
def reminderNoAddr : Reminder :=
  { id := 3
    user := 9
    title := "Water Bill"
    amount := 300
    status := "active"
    dueDate := 5400000
    nextDueDate := none
    reminderTime := 120
    notificationChannels := { email := true, push := false, inApp := false }
    notificationEmail := none
    lastNotificationSent := none
    isOverdue := false }

/-- A reminder owned by user 1, whose lookup raises in fUserMixed. -/
def reminderE : Reminder :=
  { id := 4
    user := 1
    title := "Rent"
    amount := 12000
    status := "active"
    dueDate := 3600000
    nextDueDate := none
    reminderTime := 120
    notificationChannels := { email := true, push := false, inApp := false }
    notificationEmail := some "user@example.com"
    lastNotificationSent := none
    isOverdue := false }

/-- A user store that always resolves to userA. -/
def findUserA : Nat → Except String (Option User) :=
  fun _ => .ok (some userA)

/-- A user store that raises for user 1 and resolves everyone else. -/
def fUserMixed : Nat → Except String (Option User) :=
  fun uid => if uid = 1 then .error "user db down" else .ok (some userA)

/-- Senders whose email channel raises out of its block, modelling an
uncaught orchestration failure inside sendReminder. -/
def boomSenders : Senders :=
  { email := fun _ _ _ => .error "boom"
    push := fun _ _ => .ok { success := true }
    inApp := fun _ _ => .ok { success := true } }

/-- A read notification whose readAt is 31 days before day 100. -/
def notifOld : NotificationRecord :=
  { id := 11, user := 7, type := "reminder", title := "t1", message := "m1"
    relatedId := 1, relatedType := "Reminder", priority := "normal"
    isRead := true, readAt := some (69 * 86400000) }

/-- A read notification whose readAt is 29 days before day 100. -/
def notifRecent : NotificationRecord :=
  { id := 12, user := 7, type := "reminder", title := "t2", message := "m2"
    relatedId := 2, relatedType := "Reminder", priority := "normal"
    isRead := true, readAt := some (71 * 86400000) }

/-- An unread notification with no read timestamp, arbitrarily old. -/
def notifUnread : NotificationRecord :=
  { id := 13, user := 7, type := "reminder", title := "t3", message := "m3"
    relatedId := 3, relatedType := "Reminder", priority := "normal"
    isRead := false, readAt := none }

/-- Concrete notification store for the cleanup witness. -/
def notifStore0 : List NotificationRecord :=
  [notifOld, notifRecent, notifUnread]

/-- The concrete cleanup instant: day 100 in milliseconds. -/
def now100 : Int := 100 * 86400000

theorem emailStep_concrete (env : Env) (r : Reminder) (u : User) :
    emailStep (concreteSenders env) r u =
      .ok (if r.notificationChannels.email then
             (r.notificationEmail <|> u.email).map (sendEmailNotification env r u)
           else none) := by
  unfold emailStep concreteSenders
  cases h : r.notificationChannels.email
  · simp [h]
  · cases hr : (r.notificationEmail <|> u.email) <;> simp [h, hr, Except.map]

theorem pushStep_concrete (env : Env) (r : Reminder) (u : User) :
    pushStep (concreteSenders env) r u =
      .ok (if r.notificationChannels.push then
             some (sendPushNotification env r u)
           else none) := by
  unfold pushStep concreteSenders
  cases h : r.notificationChannels.push <;> simp [h, Except.map]

theorem inAppStep_concrete (env : Env) (r : Reminder) (u : User) :
    inAppStep (concreteSenders env) r u =
      .ok (if r.notificationChannels.inApp then
             some (createInAppNotification env r u)
           else none) := by
  unfold inAppStep concreteSenders
  cases h : r.notificationChannels.inApp <;> simp [h, Except.map]

theorem sendReminder_concrete (env : Env) (r : Reminder) (u : User) :
    sendReminder (concreteSenders env) r u =
      { email := if r.notificationChannels.email then
           (r.notificationEmail <|> u.email).map (sendEmailNotification env r u)
         else none
        push := if r.notificationChannels.push then
           some (sendPushNotification env r u)
         else none
        inApp := if r.notificationChannels.inApp then
           some (createInAppNotification env r u)
         else none
        success := true
        error := none } := by
  unfold sendReminder
  rw [emailStep_concrete, pushStep_concrete, inAppStep_concrete]

/-- C3: sendReminder returns success = true exactly when the orchestration
completed without an uncaught failure: every channel block returned
normally.  With the concrete senders of the source, which catch per-channel
failures internally, success is always true, so a ChannelResult with
success = false never falsifies it.  When a block raises, the call still
returns a result object carrying success = false and the error message. -/
theorem sendReminder_overallSuccess_characterization (s : Senders)
    (r : Reminder) (u : User) (env : Env) :
    ((sendReminder s r u).success = true ↔
      (exceptOk (emailStep s r u) = true ∧ exceptOk (pushStep s r u) = true
        ∧ exceptOk (inAppStep s r u) = true))
    ∧ (sendReminder (concreteSenders env) r u).success = true
    ∧ ((sendReminder s r u).success = false →
        ∃ e, (sendReminder s r u).error = some e) := by
  refine ⟨?_, ?_, ?_⟩
  · unfold sendReminder exceptOk
    cases he : emailStep s r u <;> cases hp : pushStep s r u <;>
      cases hi : inAppStep s r u <;> simp
  · rw [sendReminder_concrete]
  · unfold sendReminder
    cases he : emailStep s r u <;> cases hp : pushStep s r u <;>
      cases hi : inAppStep s r u <;> simp

/-- Witness for C3 at a raising email block: the call returns normally with
success = false and the error message recorded. -/
theorem sendReminder_overallSuccess_characterization_witness :
    (sendReminder boomSenders reminderB userA).success = false
    ∧ (∃ e, (sendReminder boomSenders reminderB userA).error = some e) :=
  ⟨by decide,
   (sendReminder_overallSuccess_characterization boomSenders reminderB userA envA).2.2
     (by decide)⟩

/-- C5: dispatch with the concrete senders leaves disabled channels null,
invokes the sender of every enabled channel (the email send once an address
resolves), surfaces an unconfigured push gateway as a structured
not-configured failure, and never raises: one channel failing never
prevents the others from being attempted. -/
theorem dispatch_channel_independence (env : Env) (r : Reminder) (u : User) :
    ((r.notificationChannels.email = false →
        (sendReminder (concreteSenders env) r u).email = none)
      ∧ (r.notificationChannels.push = false →
          (sendReminder (concreteSenders env) r u).push = none)
      ∧ (r.notificationChannels.inApp = false →
          (sendReminder (concreteSenders env) r u).inApp = none))
    ∧ ((∀ emailTo, r.notificationChannels.email = true →
          (r.notificationEmail <|> u.email) = some emailTo →
          (sendReminder (concreteSenders env) r u).email =
            some (sendEmailNotification env r u emailTo))
      ∧ (r.notificationChannels.push = true →
          (sendReminder (concreteSenders env) r u).push =
            some (sendPushNotification env r u))
      ∧ (r.notificationChannels.inApp = true →
          (sendReminder (concreteSenders env) r u).inApp =
            some (createInAppNotification env r u)))
    ∧ (env.oneSignalConfigured = false →
        sendPushNotification env r u =
          { success := false, error := some "OneSignal not configured" })
    ∧ (sendReminder (concreteSenders env) r u).success = true := by
  rw [sendReminder_concrete]
  refine ⟨⟨?_, ?_, ?_⟩, ⟨?_, ?_, ?_⟩, ?_, rfl⟩
  · intro h; simp [h]
  · intro h; simp [h]
  · intro h; simp [h]
  · intro emailTo h1 h2; simp [h1, h2]
  · intro h; simp [h]
  · intro h; simp [h]
  · intro h; unfold sendPushNotification; simp [h]

/-- Witness for C5 at the concrete scenario of the claim: channels email
and in-app, a functioning email gateway and a failing in-app store give
email success true, in-app success false, and a normal return. -/
theorem dispatch_channel_independence_witness :
    ((sendReminder (concreteSenders envC) reminderD userA).email.map
        ChannelResult.success = some true)
    ∧ ((sendReminder (concreteSenders envC) reminderD userA).inApp.map
        ChannelResult.success = some false)
    ∧ (sendReminder (concreteSenders envC) reminderD userA).success = true := by
  refine ⟨?_, by decide, (dispatch_channel_independence envC reminderD userA).2.2.2⟩
  have h := (dispatch_channel_independence envC reminderD userA).2.1.1
    "user@example.com" (by decide) (by decide)
  rw [h]; decide

/-- Counterexample to C6 as stated: with the email channel enabled but no
override address and no user email, the pipeline skips the email send and
leaves the email result null; no failure ChannelResult is produced. -/
theorem email_missing_address_counterexample :
    reminderNoAddr.notificationChannels.email = true
    ∧ reminderNoAddr.notificationEmail = none
    ∧ userNoEmail.email = none
    ∧ (sendReminder (concreteSenders envA) reminderNoAddr userNoEmail).email = none := by
  decide

/-- C6 as amended: the destination resolves as notificationEmail with
fallback to the user email; when no address resolves the email channel is
skipped and its result left null; otherwise the sender returns success with
the gateway message id, or failure with the gateway error text. -/
theorem email_sender_resolution (env : Env) (r : Reminder) (u : User) :
    (r.notificationChannels.email = true →
      (sendReminder (concreteSenders env) r u).email =
        (r.notificationEmail <|> u.email).map (sendEmailNotification env r u))
    ∧ (∀ emailTo mid, env.emailGateway emailTo = Except.ok mid →
        sendEmailNotification env r u emailTo =
          { success := true, messageId := some mid, sentTo := some emailTo })
    ∧ (∀ emailTo msg, env.emailGateway emailTo = Except.error msg →
        sendEmailNotification env r u emailTo =
          { success := false, error := some msg, attemptedEmail := some emailTo }) := by
  refine ⟨?_, ?_, ?_⟩
  · intro h; rw [sendReminder_concrete]; simp [h]
  · intro emailTo mid hgw; unfold sendEmailNotification; rw [hgw]
  · intro emailTo msg hgw; unfold sendEmailNotification; rw [hgw]

/-- Witness for the amended C6: with an override address and a working
gateway, the email result is a success carrying the gateway message id and
the resolved address. -/
theorem email_sender_resolution_witness :
    (sendReminder (concreteSenders envC) reminderD userA).email =
      some { success := true, messageId := some "msg-1"
             sentTo := some "user@example.com" } := by
  have h := (email_sender_resolution envC reminderD userA).1 (by decide)
  rw [h]; decide

/-- C1: processReminder attempts dispatch exactly when the floor of
(effectiveDueDate minus now) in minutes is at most the reminder lead
(including negative, overdue values), no notification went out in the last
12 hours, and the owning user resolves in the user store. -/
theorem processReminder_dispatches_iff
    (findUser : Nat → Except String (Option User)) (s : Senders)
    (r : Reminder) (now : Int) :
    (processReminder findUser s r now).dispatchResult.isSome = true ↔
      (Int.fdiv (effectiveDueDate r - now) 60000 ≤ r.reminderTime
        ∧ (∀ t, r.lastNotificationSent = some t →
            12 * 60 * 60 * 1000 ≤ now - t)
        ∧ ∃ u, findUser r.user = Except.ok (some u)) := by
  unfold processReminder effectiveDueDate
  cases hl : r.lastNotificationSent with
  | none =>
    by_cases hs : Int.fdiv (r.nextDueDate.getD r.dueDate - now) 60000 ≤ r.reminderTime
    · cases hf : findUser r.user with
      | error e => simp [hl, hs, hf]
      | ok uo =>
        cases uo with
        | none => simp [hl, hs, hf]
        | some u =>
          by_cases hr : (sendReminder s r u).success = true <;>
            simp [hl, hs, hf, hr]
    · simp [hl, hs]
  | some last =>
    by_cases hsup : now - last < 43200000
    · simp only [hl, decide_eq_true_eq]
      rw [if_pos (by omega)]
      simp only [Option.isSome_none, Bool.false_eq_true, false_iff]
      rintro ⟨-, hgap, -⟩
      have := hgap last rfl
      omega
    · by_cases hs : Int.fdiv (r.nextDueDate.getD r.dueDate - now) 60000 ≤ r.reminderTime
      · cases hf : findUser r.user with
        | error e => simp [hl, hsup, hs, hf]
        | ok uo =>
          cases uo with
          | none => simp [hl, hsup, hs, hf]
          | some u =>
            by_cases hr : (sendReminder s r u).success = true <;>
              · simp [hl, hsup, hs, hf, hr]
                omega
      · simp [hl, hsup, hs]

/-- C2: the reminder that processReminder leaves behind differs from the
input only when dispatch was attempted and the dispatcher reported success,
and then exactly in lastNotificationSent, which becomes now; on dispatcher
failure, or when no dispatch was attempted, the reminder is unchanged. -/
theorem processReminder_lastNotified_frame
    (findUser : Nat → Except String (Option User)) (s : Senders)
    (r : Reminder) (now : Int) :
    (processReminder findUser s r now).reminder =
      (match (processReminder findUser s r now).dispatchResult with
       | some res =>
         if res.success = true then { r with lastNotificationSent := some now } else r
       | none => r) := by
  unfold processReminder
  cases hl : r.lastNotificationSent with
  | none =>
    by_cases hs : Int.fdiv (r.nextDueDate.getD r.dueDate - now) 60000 ≤ r.reminderTime
    · cases hf : findUser r.user with
      | error e => simp [hl, hs, hf]
      | ok uo =>
        cases uo with
        | none => simp [hl, hs, hf]
        | some u =>
          by_cases hr : (sendReminder s r u).success = true <;>
            simp [hl, hs, hf, hr]
    · simp [hl, hs]
  | some last =>
    by_cases hsup : now - last < 43200000
    · simp only [hl, decide_eq_true_eq]
      rw [if_pos (by omega)]
    · by_cases hs : Int.fdiv (r.nextDueDate.getD r.dueDate - now) 60000 ≤ r.reminderTime
      · cases hf : findUser r.user with
        | error e => simp [hl, hsup, hs, hf]
        | ok uo =>
          cases uo with
          | none => simp [hl, hsup, hs, hf]
          | some u =>
            by_cases hr : (sendReminder s r u).success = true <;>
              simp [hl, hsup, hs, hf, hr]
      · simp [hl, hsup, hs]

/-- Counterexample to C4 as stated: with a failing email gateway the
dispatch attempt completes, the email ChannelResult has success = false,
yet the dispatcher reports overall success, so processReminder persists
lastNotificationSent = now instead of leaving it untouched — the next scan
within 12 hours will not re-attempt this obligation. -/
theorem channel_failure_still_marks_notified_counterexample :
    reminderB.lastNotificationSent = none
    ∧ ((processReminder findUserA (concreteSenders envBad) reminderB 0).dispatchResult.map
        (fun a => (a.success, a.email.map ChannelResult.success))) = some (true, some false)
    ∧ (processReminder findUserA (concreteSenders envBad) reminderB 0).reminder.lastNotificationSent
        = some 0 := by
  decide

/-- C4 as amended: with the concrete senders, which convert per-channel
delivery failures into ChannelResult values instead of raising, every
attempted dispatch completes with overall success and therefore persists
lastNotificationSent = now, even when an attempted channel reported
success = false; only an uncaught orchestration failure leaves
lastNotificationSent untouched for the next scan to retry. -/
theorem lastNotified_updated_on_completed_dispatch (env : Env)
    (findUser : Nat → Except String (Option User)) (r : Reminder) (now : Int) :
    (processReminder findUser (concreteSenders env) r now).dispatchResult.isSome = true →
      (processReminder findUser (concreteSenders env) r now).reminder.lastNotificationSent
        = some now := by
  unfold processReminder
  cases hl : r.lastNotificationSent with
  | none =>
    by_cases hs : Int.fdiv (r.nextDueDate.getD r.dueDate - now) 60000 ≤ r.reminderTime
    · cases hf : findUser r.user with
      | error e => simp [hl, hs, hf]
      | ok uo =>
        cases uo with
        | none => simp [hl, hs, hf]
        | some u => simp [hl, hs, hf, sendReminder_concrete]
    · simp [hl, hs]
  | some last =>
    by_cases hsup : now - last < 43200000
    · simp only [hl, decide_eq_true_eq]
      rw [if_pos (by omega)]
      simp
    · by_cases hs : Int.fdiv (r.nextDueDate.getD r.dueDate - now) 60000 ≤ r.reminderTime
      · cases hf : findUser r.user with
        | error e => simp [hl, hsup, hs, hf]
        | ok uo =>
          cases uo with
          | none => simp [hl, hsup, hs, hf]
          | some u => simp [hl, hsup, hs, hf, sendReminder_concrete]
      · simp [hl, hsup, hs]

/-- Witness for the amended C4: the failing-gateway dispatch of the
counterexample is attempted and still persists lastNotificationSent. -/
theorem lastNotified_updated_on_completed_dispatch_witness :
    (processReminder findUserA (concreteSenders envBad) reminderB 0).dispatchResult.isSome = true
    ∧ (processReminder findUserA (concreteSenders envBad) reminderB 0).reminder.lastNotificationSent
        = some 0 :=
  ⟨by decide,
   lastNotified_updated_on_completed_dispatch envBad findUserA reminderB 0 (by decide)⟩

/-- C7: a scan over a successfully queried store processes exactly the
reminders matching the query filter, and a reminder matches the filter
exactly when its status is active and its effective due date lies in the
closed window [now, now + 2 hours]. -/
theorem scan_window_membership (findUser : Nat → Except String (Option User))
    (s : Senders) (now : Int) (store : List Reminder) (r : Reminder) :
    (checkDueReminders findUser s now (Except.ok store) =
      ScanResult.completed ((store.filter (matchesDueQuery now)).map
        (fun x => processReminder findUser s x now)))
    ∧ (r ∈ store.filter (matchesDueQuery now) ↔
        (r ∈ store ∧ r.status = "active" ∧ now ≤ effectiveDueDate r
          ∧ effectiveDueDate r ≤ now + 2 * 60 * 60 * 1000)) := by
  refine ⟨rfl, ?_⟩
  rw [List.mem_filter]
  unfold matchesDueQuery effectiveDueDate
  cases hn : r.nextDueDate <;> simp [hn, and_assoc]

/-- C8: a raising store query aborts only that scan invocation, with the
error absorbed; a successful query yields one processReminder outcome per
matching reminder, and every matching reminder keeps its own outcome in
the completed list, independent of failures while processing the others
(processReminder is total: its catch block absorbs per-obligation
failures). -/
theorem scan_failure_isolation (findUser : Nat → Except String (Option User))
    (s : Senders) (now : Int) (e : String) (rs : List Reminder) :
    (checkDueReminders findUser s now (Except.error e) = ScanResult.aborted e)
    ∧ (checkDueReminders findUser s now (Except.ok rs) =
        ScanResult.completed ((rs.filter (matchesDueQuery now)).map
          (fun x => processReminder findUser s x now)))
    ∧ (∀ r, r ∈ rs.filter (matchesDueQuery now) →
        processReminder findUser s r now ∈
          (rs.filter (matchesDueQuery now)).map
            (fun x => processReminder findUser s x now)) := by
  refine ⟨rfl, rfl, ?_⟩
  intro r hr
  exact List.mem_map_of_mem _ hr

/-- Witness for C8: the query error is absorbed as an aborted scan; in a
two-reminder scan where the first owner lookup raises, the first outcome
records the caught error and the second reminder is still processed and
dispatched. -/
theorem scan_failure_isolation_witness :
    checkDueReminders fUserMixed (concreteSenders envA) 0 (Except.error "query failed")
        = ScanResult.aborted "query failed"
    ∧ (processReminder fUserMixed (concreteSenders envA) reminderE 0).caughtError
        = some "user db down"
    ∧ processReminder fUserMixed (concreteSenders envA) reminderB 0 ∈
        (([reminderE, reminderB].filter (matchesDueQuery 0)).map
          (fun x => processReminder fUserMixed (concreteSenders envA) x 0))
    ∧ (processReminder fUserMixed (concreteSenders envA) reminderB 0).dispatchResult.isSome
        = true := by
  refine ⟨(scan_failure_isolation fUserMixed (concreteSenders envA) 0 "query failed"
      [reminderE, reminderB]).1, by decide, ?_, by decide⟩
  exact (scan_failure_isolation fUserMixed (concreteSenders envA) 0 "query failed"
      [reminderE, reminderB]).2.2 reminderB (by decide)

theorem length_filter_add_length_filter_not {α : Type} (p : α → Bool) (l : List α) :
    (l.filter p).length + (l.filter (fun a => !(p a))).length = l.length := by
  induction l with
  | nil => rfl
  | cons a l ih =>
    cases h : p a <;> simp [List.filter_cons, h] <;> omega

theorem readOldPredicate_eq_true_iff (cutoff : Int) (n : NotificationRecord) :
    readOldPredicate cutoff n = true ↔
      (n.isRead = true ∧ ∃ t, n.readAt = some t ∧ t < cutoff) := by
  unfold readOldPredicate
  cases hr : n.readAt <;> simp [hr]

/-- C9: cleanup removes from the store exactly the records that are read
and were read more than 30 days before now; unread records and records
read within the last 30 days survive, and the returned count is the number
of deleted records. -/
theorem cleanup_deletes_exactly_old_read (now : Int)
    (store : List NotificationRecord) :
    ((cleanupOldNotifications now store).1 +
        (cleanupOldNotifications now store).2.length = store.length)
    ∧ (∀ n, n ∈ (cleanupOldNotifications now store).2 → n ∈ store)
    ∧ (∀ n, n ∈ store →
        (n ∈ (cleanupOldNotifications now store).2 ↔
          ¬(n.isRead = true ∧ ∃ t, n.readAt = some t
              ∧ t < now - 30 * 24 * 60 * 60 * 1000))) := by
  unfold cleanupOldNotifications
  refine ⟨length_filter_add_length_filter_not _ _, ?_, ?_⟩
  · intro n hn
    exact (List.mem_filter.mp hn).1
  · intro n hn
    rw [List.mem_filter, ← readOldPredicate_eq_true_iff]
    simp [hn]

/-- Witness for C9 at day 100: the record read 31 days ago is deleted and
counted, while the record read 29 days ago and the unread record remain. -/
theorem cleanup_deletes_exactly_old_read_witness :
    (cleanupOldNotifications now100 notifStore0).1 = 1
    ∧ notifOld ∉ (cleanupOldNotifications now100 notifStore0).2
    ∧ notifRecent ∈ (cleanupOldNotifications now100 notifStore0).2
    ∧ notifUnread ∈ (cleanupOldNotifications now100 notifStore0).2 := by
  refine ⟨by decide, ?_, ?_, ?_⟩
  · intro hmem
    exact ((cleanup_deletes_exactly_old_read now100 notifStore0).2.2 notifOld
        (by decide)).mp hmem
      ⟨by decide, 69 * 86400000, by decide, by decide⟩
  · refine ((cleanup_deletes_exactly_old_read now100 notifStore0).2.2 notifRecent
      (by decide)).mpr ?_
    rintro ⟨-, t, ht, hlt⟩
    rw [show notifRecent.readAt = some 6134400000 from rfl] at ht
    cases ht
    revert hlt
    decide
  · refine ((cleanup_deletes_exactly_old_read now100 notifStore0).2.2 notifUnread
      (by decide)).mpr ?_
    rintro ⟨hread, -⟩
    exact absurd hread (by decide)

/-- Counterexample to C10 as stated: startAll registers a fresh pair of
cron jobs unconditionally, so a second start duplicates the two periodic
tasks instead of leaving the registered set unchanged. -/
theorem start_twice_duplicates_counterexample :
    (startAll initialScheduler).jobs.map Job.name = ["reminderCheck", "cleanup"]
    ∧ (startAll (startAll initialScheduler)).jobs.map Job.name =
        ["reminderCheck", "cleanup", "reminderCheck", "cleanup"]
    ∧ ¬ ((startAll (startAll initialScheduler)).jobs.map Job.name).Nodup := by
  refine ⟨rfl, rfl, by decide⟩

/-- C10 as amended: stopAll always clears the job list and is idempotent —
a second call cancels nothing further and does not fail — but startAll
appends a fresh reminderCheck job and cleanup job on every call, so
starting twice does register duplicate periodic tasks; the scheduler state
is exactly its job list. -/
theorem scheduler_lifecycle (sch : ReminderScheduler) :
    ((stopAll sch).2 = { jobs := [] })
    ∧ (stopAll (stopAll sch).2 = ([], { jobs := [] }))
    ∧ ((startAll sch).jobs = sch.jobs ++
        [{ name := "reminderCheck", running := true },
         { name := "cleanup", running := true }])
    ∧ ((stopAll (startAll sch)).2 = { jobs := [] }) :=
  ⟨rfl, rfl, rfl, rfl⟩
